import Mathlib

/-!
Shallow embedding of the key-material model and wire-format codec of the
builtin DDS Security cryptographic plugin (AES-GCM/GMAC), translated from
`src/security/cryptographic/builtin_types.rs` and
`src/security/cryptographic/cryptographic_builtin/key_material.rs`.

Bytes are modelled as natural numbers (`Nat`); byte sequences as `List Nat`.
Fallible Rust conversions (`TryFrom`) become functions into `Except`.
The single Rust error type `SecurityError { msg: String }` is modelled as an
inductive whose constructors correspond to the distinct error construction
sites and carry the values interpolated into the message strings.
-/

namespace RustDDS

/-- Equality of `Except` values is decidable when it is on both sides. -/
instance {ε α : Type} [DecidableEq ε] [DecidableEq α] :
    DecidableEq (Except ε α) := fun a b =>
  match a, b with
  | .ok x, .ok y =>
      if h : x = y then .isTrue (by rw [h]) else
        .isFalse (by intro hc; cases hc; exact h rfl)
  | .error x, .error y =>
      if h : x = y then .isTrue (by rw [h]) else
        .isFalse (by intro hc; cases hc; exact h rfl)
  | .ok x, .error y => .isFalse (by intro hc; cases hc)
  | .error x, .ok y => .isFalse (by intro hc; cases hc)

/-- The distinguishable causes of `SecurityError`, one constructor per
error-construction site in the embedded code, carrying the data that the
Rust code formats into the message string. -/
inductive SecurityError where
  /-- "CryptoToken has wrong class_id. Expected {CRYPTO_TOKEN_CLASS_ID}" -/
  | wrongClassId (expected : String)
  /-- "CryptoToken has wrong properties. Expected properties to be empty." -/
  | wrongProperties
  /-- "CryptoToken has wrong binary_properties. Expected exactly 1 binary
  property with name {CRYPTO_TOKEN_KEYMAT_NAME}." -/
  | wrongBinaryProperties (expectedName : String)
  /-- "Invalid CryptoTransformKind" -/
  | invalidTransformationKind
  /-- "Error deserializing KeyMaterial_AES_GCM_GMAC: {e}" -/
  | deserializationError
  /-- Key bytes do not have the length mandated by the transformation kind
  (from `BuiltinKey::from_bytes`). -/
  | keyLengthMismatch (required observed : Nat)
  /-- "Expected 1 or 2 key materials in KeyMaterial_AES_GCM_GMAC_seq,
  received {n}" -/
  | invalidCardinality (observed : Nat)
  /-- "The receiver-specific key material has a wrong sender_key_id:
  expected {e}, received {r}." -/
  | mismatchedSenderKeyId (expected received : Nat)
  /-- "The receiver-specific key material has a wrong transformation_kind:
  expected {e}, received {r}." (payload indices into the kind enumeration) -/
  | mismatchedTransformationKind (expected received : Nat)
  /-- "The receiver-specific key has a wrong master_sender_key:
  expected {e}, received {r}." -/
  | mismatchedMasterSenderKey (expected received : List Nat)
  /-- "The receiver-specific key has a wrong master_salt:
  expected {e}, received {r}." -/
  | mismatchedMasterSalt (expected received : List Nat)
  /-- "plugin_crypto_header_extra was of length {n}. Expected 12." -/
  | malformedHeaderExtra (observedLength : Nat)
deriving DecidableEq, Repr

/-- Modelled from the spec: `CryptoTransformKind` from
`security/cryptographic/types.rs` (not under `src/`): "4 bytes", the raw
4-byte wire code of a transformation kind (Rust `[u8; 4]`). -/
structure CryptoTransformKind where
  b0 : Nat
  b1 : Nat
  b2 : Nat
  b3 : Nat
deriving DecidableEq, Repr

/-- Modelled from the spec: `CryptoTransformKeyId` from
`security/cryptographic/types.rs` (not under `src/`): "Opaque key
identifier, 4-byte value"; the code assigns the integer literal `0` to it,
so it is a 4-byte unsigned integer, modelled as `Nat` (< 2^32 on the wire). -/
abbrev CryptoTransformKeyId := Nat

/-- `BuiltinCryptoTransformationKind` from `builtin_types.rs`: valid values
for CryptoTransformKind. -/
inductive BuiltinCryptoTransformationKind where
  | CRYPTO_TRANSFORMATION_KIND_NONE
  | CRYPTO_TRANSFORMATION_KIND_AES128_GMAC
  | CRYPTO_TRANSFORMATION_KIND_AES128_GCM
  | CRYPTO_TRANSFORMATION_KIND_AES256_GMAC
  | CRYPTO_TRANSFORMATION_KIND_AES256_GCM
deriving DecidableEq, Repr

namespace BuiltinCryptoTransformationKind

/-- Index of a kind in the enumeration, used only as the payload of the
`mismatchedTransformationKind` error (the Rust code formats the kind with
`{:?}`). -/
def toIdx : BuiltinCryptoTransformationKind → Nat
  | .CRYPTO_TRANSFORMATION_KIND_NONE => 0
  | .CRYPTO_TRANSFORMATION_KIND_AES128_GMAC => 1
  | .CRYPTO_TRANSFORMATION_KIND_AES128_GCM => 2
  | .CRYPTO_TRANSFORMATION_KIND_AES256_GMAC => 3
  | .CRYPTO_TRANSFORMATION_KIND_AES256_GCM => 4

/-- `TryFrom<CryptoTransformKind> for BuiltinCryptoTransformationKind`
(`builtin_types.rs`): the five reserved 4-byte codes decode, everything
else is an error. The Rust `match` on the 4-byte array is translated to a
chain of equality tests in arm order. -/
def tryFrom (value : CryptoTransformKind) :
    Except SecurityError BuiltinCryptoTransformationKind :=
  if value = ⟨0, 0, 0, 0⟩ then .ok .CRYPTO_TRANSFORMATION_KIND_NONE
  else if value = ⟨0, 0, 0, 1⟩ then .ok .CRYPTO_TRANSFORMATION_KIND_AES128_GMAC
  else if value = ⟨0, 0, 0, 2⟩ then .ok .CRYPTO_TRANSFORMATION_KIND_AES128_GCM
  else if value = ⟨0, 0, 0, 3⟩ then .ok .CRYPTO_TRANSFORMATION_KIND_AES256_GMAC
  else if value = ⟨0, 0, 0, 4⟩ then .ok .CRYPTO_TRANSFORMATION_KIND_AES256_GCM
  else .error .invalidTransformationKind

/-- `From<BuiltinCryptoTransformationKind> for CryptoTransformKind`
(`builtin_types.rs`). -/
def toWire : BuiltinCryptoTransformationKind → CryptoTransformKind
  | .CRYPTO_TRANSFORMATION_KIND_NONE => ⟨0, 0, 0, 0⟩
  | .CRYPTO_TRANSFORMATION_KIND_AES128_GMAC => ⟨0, 0, 0, 1⟩
  | .CRYPTO_TRANSFORMATION_KIND_AES128_GCM => ⟨0, 0, 0, 2⟩
  | .CRYPTO_TRANSFORMATION_KIND_AES256_GMAC => ⟨0, 0, 0, 3⟩
  | .CRYPTO_TRANSFORMATION_KIND_AES256_GCM => ⟨0, 0, 0, 4⟩

end BuiltinCryptoTransformationKind

/-- Modelled from the spec: the Key-Length Policy (§4.2) of
`cryptographic_builtin/builtin_key.rs`, which is not under `src/`:
"`required_length(TransformationKind) -> {0, 16, 32}`. Pure function, no
side effects, total over the closed enumeration"; "for transformation kind
AES128_* the required length is 16; for AES256_* it is 32; for NONE it
is 0". The `KeyLength::try_from(transformation_kind)?` call in
`key_material.rs` therefore never fails. -/
def requiredLength : BuiltinCryptoTransformationKind → Nat
  | .CRYPTO_TRANSFORMATION_KIND_NONE => 0
  | .CRYPTO_TRANSFORMATION_KIND_AES128_GMAC => 16
  | .CRYPTO_TRANSFORMATION_KIND_AES128_GCM => 16
  | .CRYPTO_TRANSFORMATION_KIND_AES256_GMAC => 32
  | .CRYPTO_TRANSFORMATION_KIND_AES256_GCM => 32

/-- Modelled from the spec: the Bounded Key Container `BuiltinKey` (§4.3) of
`cryptographic_builtin/builtin_key.rs`, which is not under `src/`: "an
opaque fixed-or-bounded-length byte container representing a raw symmetric
key"; equality is by value. -/
structure BuiltinKey where
  bytes : List Nat
deriving DecidableEq, Repr

namespace BuiltinKey

/-- Modelled from the spec (§4.3): "`from_bytes(required_length, bytes) ->
BoundedKey | Error`; fails with `KeyLengthMismatch` if
`bytes.len() != required_length`". -/
def from_bytes (len : Nat) (bytes : List Nat) : Except SecurityError BuiltinKey :=
  if bytes.length = len then .ok ⟨bytes⟩
  else .error (.keyLengthMismatch len bytes.length)

/-- Modelled from the spec (§4.3): "a read accessor returning the raw bytes
for serialization". -/
def as_bytes (k : BuiltinKey) : List Nat := k.bytes

/-- Modelled from the spec (§4.3, design note §9): a canonical all-zero
value for the degenerate no-key case — "an all-zero AES256 key". -/
def ZERO : BuiltinKey := ⟨List.replicate 32 0⟩

end BuiltinKey

/-! CDR primitives

Modelled from the spec: the generic CDR primitive serializer/deserializer
(`serialization/cdr_serializer.rs` / `CdrDeserializer`) is not under `src/`
and is "assumed as a correct external library" (§1); the wire format is
specified in §6: "all multi-byte integers big-endian, CDR-style
length-prefixed variable sequences". -/

/-- Modelled from the spec (§6): big-endian encoding of a 4-byte unsigned
integer. -/
def u32ToBytes (n : Nat) : List Nat :=
  [n / 2 ^ 24 % 256, n / 2 ^ 16 % 256, n / 2 ^ 8 % 256, n % 256]

/-- Modelled from the spec (§6): read a big-endian 4-byte unsigned integer
from the front of the input. -/
def readU32 : List Nat → Option (Nat × List Nat)
  | b0 :: b1 :: b2 :: b3 :: rest =>
      some (((b0 * 256 + b1) * 256 + b2) * 256 + b3, rest)
  | _ => none

/-- Modelled from the spec (§6): encoding of a length-prefixed variable
sequence of octets. -/
def encodeSeq (l : List Nat) : List Nat := u32ToBytes l.length ++ l

/-- Modelled from the spec (§6): read a length-prefixed variable sequence of
octets from the front of the input. -/
def readSeq (input : List Nat) : Option (List Nat × List Nat) := do
  let (n, rest) ← readU32 input
  if n ≤ rest.length then some (rest.take n, rest.drop n) else none

/-- Modelled from the spec (§6): the raw 4 bytes of a transformation kind on
the wire. -/
def readKind : List Nat → Option (CryptoTransformKind × List Nat)
  | b0 :: b1 :: b2 :: b3 :: rest => some (⟨b0, b1, b2, b3⟩, rest)
  | _ => none

/-- The raw 4 bytes of a transformation kind, as written to the wire. -/
def kindBytes (c : CryptoTransformKind) : List Nat := [c.b0, c.b1, c.b2, c.b3]

/-- `Serializable_KeyMaterial_AES_GCM_GMAC` from `key_material.rs`: the
(de)serialization mirror of the key material, with the generic
transformation kind and raw key byte sequences. -/
structure Serializable_KeyMaterial_AES_GCM_GMAC where
  transformation_kind : CryptoTransformKind
  master_salt : List Nat
  sender_key_id : CryptoTransformKeyId
  master_sender_key : List Nat
  receiver_specific_key_id : CryptoTransformKeyId
  master_receiver_specific_key : List Nat
deriving DecidableEq, Repr

namespace Serializable_KeyMaterial_AES_GCM_GMAC

/-- Modelled from the spec (§6): the CDR encoding of
`Serializable_KeyMaterial_AES_GCM_GMAC`, field by field in declaration
order: "transformation_kind (4 bytes), master_salt (length-prefixed, ≤32
bytes), sender_key_id (4 bytes), master_sender_key (length-prefixed, ≤32
bytes), receiver_specific_key_id (4 bytes), master_receiver_specific_key
(length-prefixed, ≤32 bytes)". -/
def encode (s : Serializable_KeyMaterial_AES_GCM_GMAC) : List Nat :=
  kindBytes s.transformation_kind
    ++ encodeSeq s.master_salt
    ++ u32ToBytes s.sender_key_id
    ++ encodeSeq s.master_sender_key
    ++ u32ToBytes s.receiver_specific_key_id
    ++ encodeSeq s.master_receiver_specific_key

/-- Modelled from the spec (§6): CDR decoding of
`Serializable_KeyMaterial_AES_GCM_GMAC`, the field-by-field inverse of
`encode`; returns the decoded structure and the unconsumed remainder of the
input. -/
def decode (input : List Nat) :
    Option (Serializable_KeyMaterial_AES_GCM_GMAC × List Nat) := do
  let (transformation_kind, input) ← readKind input
  let (master_salt, input) ← readSeq input
  let (sender_key_id, input) ← readU32 input
  let (master_sender_key, input) ← readSeq input
  let (receiver_specific_key_id, input) ← readU32 input
  let (master_receiver_specific_key, input) ← readSeq input
  some (⟨transformation_kind, master_salt, sender_key_id, master_sender_key,
         receiver_specific_key_id, master_receiver_specific_key⟩, input)

end Serializable_KeyMaterial_AES_GCM_GMAC

/-- `KeyMaterial_AES_GCM_GMAC` from `key_material.rs`: the typed in-memory
key material, with the builtin transformation kind and bounded keys. -/
structure KeyMaterial_AES_GCM_GMAC where
  transformation_kind : BuiltinCryptoTransformationKind
  master_salt : List Nat
  sender_key_id : CryptoTransformKeyId
  master_sender_key : BuiltinKey
  receiver_specific_key_id : CryptoTransformKeyId
  master_receiver_specific_key : BuiltinKey
deriving DecidableEq, Repr

namespace KeyMaterial_AES_GCM_GMAC

/-- `TryFrom<Serializable_KeyMaterial_AES_GCM_GMAC> for
KeyMaterial_AES_GCM_GMAC` (`key_material.rs`): decode the transformation
kind, derive the key length from it, and construct both bounded keys,
propagating errors in evaluation order (sender key before
receiver-specific key). -/
def tryFromSerializable (s : Serializable_KeyMaterial_AES_GCM_GMAC) :
    Except SecurityError KeyMaterial_AES_GCM_GMAC := do
  let transformation_kind ←
    BuiltinCryptoTransformationKind.tryFrom s.transformation_kind
  let key_len := requiredLength transformation_kind
  let master_sender_key ← BuiltinKey.from_bytes key_len s.master_sender_key
  let master_receiver_specific_key ←
    BuiltinKey.from_bytes key_len s.master_receiver_specific_key
  .ok ⟨transformation_kind, s.master_salt, s.sender_key_id, master_sender_key,
       s.receiver_specific_key_id, master_receiver_specific_key⟩

/-- `From<KeyMaterial_AES_GCM_GMAC> for
Serializable_KeyMaterial_AES_GCM_GMAC` (`key_material.rs`). -/
def toSerializable (m : KeyMaterial_AES_GCM_GMAC) :
    Serializable_KeyMaterial_AES_GCM_GMAC :=
  ⟨m.transformation_kind.toWire, m.master_salt, m.sender_key_id,
   m.master_sender_key.as_bytes, m.receiver_specific_key_id,
   m.master_receiver_specific_key.as_bytes⟩

/-- `TryFrom<Bytes> for KeyMaterial_AES_GCM_GMAC` (`key_material.rs`):
CDR-deserialize the serializable mirror (deserialization failure maps to a
`SecurityError`), then convert it to the typed key material. -/
def tryFromBytes (value : List Nat) :
    Except SecurityError KeyMaterial_AES_GCM_GMAC :=
  match Serializable_KeyMaterial_AES_GCM_GMAC.decode value with
  | none => .error .deserializationError
  | some (s, _) => tryFromSerializable s

/-- `TryFrom<KeyMaterial_AES_GCM_GMAC> for Bytes` (`key_material.rs`):
convert to the serializable mirror and CDR-serialize it. Serialization of
the modelled CDR writer is total, so this always returns `.ok`. -/
def toBytes (m : KeyMaterial_AES_GCM_GMAC) : Except SecurityError (List Nat) :=
  .ok (toSerializable m).encode

end KeyMaterial_AES_GCM_GMAC

/-- The data-model invariants (§3) of a validly-constructed key material:
key lengths are mandated by the transformation kind (the `BoundedKey`
construction invariant), the master salt is bounded to 32 bytes, byte
values are octets, and key ids fit in their 4-byte wire representation. -/
def ValidKeyMaterial (m : KeyMaterial_AES_GCM_GMAC) : Prop :=
  m.master_sender_key.bytes.length = requiredLength m.transformation_kind ∧
  m.master_receiver_specific_key.bytes.length
      = requiredLength m.transformation_kind ∧
  m.master_salt.length ≤ 32 ∧
  m.sender_key_id < 2 ^ 32 ∧
  m.receiver_specific_key_id < 2 ^ 32

instance (m : KeyMaterial_AES_GCM_GMAC) : Decidable (ValidKeyMaterial m) := by
  unfold ValidKeyMaterial; infer_instance

/-! Generic token types -/

/-- Modelled from the spec: `Property` of the generic property-bag
(`security/types.rs`, not under `src/`): a named string property. -/
structure Property where
  name : String
  value : String
  propagate : Bool
deriving DecidableEq, Repr

/-- Modelled from the spec: `BinaryProperty` of the generic property-bag
(`security/types.rs`, not under `src/`): a named binary property whose
value is a byte sequence. -/
structure BinaryProperty where
  name : String
  value : List Nat
  propagate : Bool
deriving DecidableEq, Repr

/-- Modelled from the spec: `DataHolder` (`security/types.rs`, not under
`src/`): "a generic, class-tagged property bag" with a class id string, a
list of named string properties and a list of named binary properties. -/
structure DataHolder where
  class_id : String
  properties : List Property
  binary_properties : List BinaryProperty
deriving DecidableEq, Repr

/-- Modelled from the spec: `CryptoToken` (`security/cryptographic/types.rs`,
not under `src/`): the generic carrier, wrapping a `DataHolder`. -/
structure CryptoToken where
  data_holder : DataHolder
deriving DecidableEq, Repr

def CRYPTO_TOKEN_CLASS_ID : String := "DDS:Crypto:AES_GCM_GMAC"
def CRYPTO_TOKEN_KEYMAT_NAME : String := "dds.cryp.keymat"

/-- `BuiltinCryptoToken` from `builtin_types.rs`, carrying one typed key
material. -/
structure BuiltinCryptoToken where
  key_material : KeyMaterial_AES_GCM_GMAC
deriving DecidableEq, Repr

namespace BuiltinCryptoToken

/-- `TryFrom<CryptoToken> for BuiltinCryptoToken` (`builtin_types.rs`): the
Rust `match` on `(class_id.as_str(), properties.as_slice(),
binary_properties.as_slice())`, translated arm by arm in order:
`(CRYPTO_TOKEN_CLASS_ID, [], [bp0])` decodes `bp0.value`;
`(CRYPTO_TOKEN_CLASS_ID, [], bps)` is the wrong-binary-properties error;
`(CRYPTO_TOKEN_CLASS_ID, ps, _)` is the wrong-properties error; anything
else is the wrong-class-id error. Note that the first arm does not inspect
`bp0.name`. -/
def tryFrom (value : CryptoToken) : Except SecurityError BuiltinCryptoToken :=
  let dh := value.data_holder
  if dh.class_id = CRYPTO_TOKEN_CLASS_ID then
    match dh.properties, dh.binary_properties with
    | [], [bp0] =>
        (KeyMaterial_AES_GCM_GMAC.tryFromBytes bp0.value).map
          fun km => ⟨km⟩
    | [], _ => .error (.wrongBinaryProperties CRYPTO_TOKEN_KEYMAT_NAME)
    | _, _ => .error .wrongProperties
  else .error (.wrongClassId CRYPTO_TOKEN_CLASS_ID)

/-- `TryFrom<BuiltinCryptoToken> for CryptoToken` (`builtin_types.rs`):
build a token with the builtin class id, no properties, and a single binary
property named `dds.cryp.keymat` whose value is the serialized key
material. -/
def toCryptoToken (value : BuiltinCryptoToken) :
    Except SecurityError CryptoToken :=
  (value.key_material.toBytes).map fun bytes =>
    ⟨⟨CRYPTO_TOKEN_CLASS_ID, [],
      [⟨CRYPTO_TOKEN_KEYMAT_NAME, bytes, true⟩]⟩⟩

end BuiltinCryptoToken

namespace KeyMaterial_AES_GCM_GMAC

/-- `TryFrom<CryptoToken> for KeyMaterial_AES_GCM_GMAC`
(`key_material.rs`): parse the builtin token, then project out its key
material. -/
def tryFromToken (token : CryptoToken) :
    Except SecurityError KeyMaterial_AES_GCM_GMAC :=
  (BuiltinCryptoToken.tryFrom token).map BuiltinCryptoToken.key_material

/-- `TryFrom<KeyMaterial_AES_GCM_GMAC> for CryptoToken`
(`key_material.rs`): wrap in a `BuiltinCryptoToken` and convert. -/
def toToken (m : KeyMaterial_AES_GCM_GMAC) : Except SecurityError CryptoToken :=
  BuiltinCryptoToken.toCryptoToken ⟨m⟩

end KeyMaterial_AES_GCM_GMAC

/-! Key material sequence -/

/-- `KeyMaterial_AES_GCM_GMAC_seq` from `key_material.rs`: one or two key
materials per endpoint. -/
inductive KeyMaterial_AES_GCM_GMAC_seq where
  | One (key_material : KeyMaterial_AES_GCM_GMAC)
  | Two (key_material payload_key_material : KeyMaterial_AES_GCM_GMAC)
deriving DecidableEq, Repr

namespace KeyMaterial_AES_GCM_GMAC_seq

/-- `KeyMaterial_AES_GCM_GMAC_seq::modify_key_material`
(`key_material.rs`): apply `f` to the first element, keep the second. -/
def modify_key_material (s : KeyMaterial_AES_GCM_GMAC_seq)
    (f : KeyMaterial_AES_GCM_GMAC → KeyMaterial_AES_GCM_GMAC) :
    KeyMaterial_AES_GCM_GMAC_seq :=
  match s with
  | .One key_material => .One (f key_material)
  | .Two key_material payload_key_material =>
      .Two (f key_material) payload_key_material

/-- `KeyMaterial_AES_GCM_GMAC_seq::add_master_receiver_specific_key`
(`key_material.rs`): replace the first element's receiver-specific key id
and key, keeping its other four fields. -/
def add_master_receiver_specific_key (s : KeyMaterial_AES_GCM_GMAC_seq)
    (receiver_specific_key_id : CryptoTransformKeyId)
    (master_receiver_specific_key : BuiltinKey) :
    KeyMaterial_AES_GCM_GMAC_seq :=
  s.modify_key_material fun km =>
    ⟨km.transformation_kind, km.master_salt, km.sender_key_id,
     km.master_sender_key, receiver_specific_key_id,
     master_receiver_specific_key⟩

/-- `TryFrom<Vec<KeyMaterial_AES_GCM_GMAC>> for KeyMaterial_AES_GCM_GMAC_seq`
(`key_material.rs`): the `match` on `value.as_slice()`, arm by arm:
one element, two elements, the empty list (degenerate NONE key material
with `BuiltinKey::ZERO` keys), and the cardinality error carrying the
observed length. -/
def tryFromList (value : List KeyMaterial_AES_GCM_GMAC) :
    Except SecurityError KeyMaterial_AES_GCM_GMAC_seq :=
  match value with
  | [key_material] => .ok (.One key_material)
  | [key_material, payload_key_material] =>
      .ok (.Two key_material payload_key_material)
  | [] =>
      .ok (.One ⟨.CRYPTO_TRANSFORMATION_KIND_NONE, [], 0, BuiltinKey.ZERO, 0,
                 BuiltinKey.ZERO⟩)
  | _ => .error (.invalidCardinality value.length)

end KeyMaterial_AES_GCM_GMAC_seq

/-- `ReceiverKeyMaterial` from `key_material.rs`. -/
structure ReceiverKeyMaterial where
  receiver_specific_key_id : CryptoTransformKeyId
  master_receiver_specific_key : BuiltinKey
deriving DecidableEq, Repr

namespace KeyMaterial_AES_GCM_GMAC

/-- `KeyMaterial_AES_GCM_GMAC::receiver_key_material_for`
(`key_material.rs`): compare `sender_key_id`, `transformation_kind`,
`master_sender_key` and `master_salt` against the common key material in
that order, returning a mismatch error naming the first differing field
(with expected = common's value, received = self's value), or on success
self's receiver-specific id and key. -/
def receiver_key_material_for (self common : KeyMaterial_AES_GCM_GMAC) :
    Except SecurityError ReceiverKeyMaterial :=
  if self.sender_key_id ≠ common.sender_key_id then
    .error (.mismatchedSenderKeyId common.sender_key_id self.sender_key_id)
  else if self.transformation_kind ≠ common.transformation_kind then
    .error (.mismatchedTransformationKind common.transformation_kind.toIdx
              self.transformation_kind.toIdx)
  else if self.master_sender_key ≠ common.master_sender_key then
    .error (.mismatchedMasterSenderKey common.master_sender_key.bytes
              self.master_sender_key.bytes)
  else if self.master_salt ≠ common.master_salt then
    .error (.mismatchedMasterSalt common.master_salt self.master_salt)
  else
    .ok ⟨self.receiver_specific_key_id, self.master_receiver_specific_key⟩

end KeyMaterial_AES_GCM_GMAC

/-! Crypto header -/

/-- `BuiltinCryptoTransformIdentifier` from `builtin_types.rs`. -/
structure BuiltinCryptoTransformIdentifier where
  transformation_kind : BuiltinCryptoTransformationKind
  transformation_key_id : CryptoTransformKeyId
deriving DecidableEq, Repr

/-- Modelled from the spec: `CryptoTransformIdentifier`
(`security/cryptographic/types.rs`, not under `src/`): the raw (kind, key
id) pair as carried on the wire. -/
structure CryptoTransformIdentifier where
  transformation_kind : CryptoTransformKind
  transformation_key_id : CryptoTransformKeyId
deriving DecidableEq, Repr

/-- Modelled from the spec: the `plugin_crypto_header_extra` submessage
element (`messages/submessages/...`, not under `src/`): an opaque byte
sequence, accessed through its `data` field. -/
structure PluginCryptoHeaderExtra where
  data : List Nat
deriving DecidableEq, Repr

/-- Modelled from the spec: the `CryptoHeader` submessage element
(`messages/submessages/submessage_elements/crypto_header.rs`, not under
`src/`): a transformation identifier and the opaque extra bytes. -/
structure CryptoHeader where
  transformation_id : CryptoTransformIdentifier
  plugin_crypto_header_extra : PluginCryptoHeaderExtra
deriving DecidableEq, Repr

/-- `TryFrom<CryptoTransformIdentifier> for BuiltinCryptoTransformIdentifier`
(`builtin_types.rs`): decode the transformation kind, keep the key id. -/
def BuiltinCryptoTransformIdentifier.tryFrom
    (value : CryptoTransformIdentifier) :
    Except SecurityError BuiltinCryptoTransformIdentifier :=
  match BuiltinCryptoTransformationKind.tryFrom value.transformation_kind with
  | .error e => .error e
  | .ok transformation_kind =>
      .ok ⟨transformation_kind, value.transformation_key_id⟩

/-- `BuiltinCryptoHeader` from `builtin_types.rs`. -/
structure BuiltinCryptoHeader where
  transform_identifier : BuiltinCryptoTransformIdentifier
  session_id : List Nat
  initialization_vector_suffix : List Nat
deriving DecidableEq, Repr

/-- Outcome of running a piece of Rust code that may panic: either a panic
(an abort, not a returned value) or the returned value. -/
inductive RustOutcome (α : Type) where
  | panic
  | ret (a : α)
deriving DecidableEq, Repr

/-- `<[u8; n]>::try_from(&[u8])`: succeeds iff the slice has exactly `n`
elements. -/
def tryFixedArray (n : Nat) (l : List Nat) : Option (List Nat) :=
  if l.length = n then some l else none

namespace BuiltinCryptoHeader

/-- `TryFrom<CryptoHeader> for BuiltinCryptoHeader` (`builtin_types.rs`).
The Rust code evaluates the tuple
`(BuiltinCryptoTransformIdentifier::try_from(value.transformation_id),
<[u8; 4]>::try_from(&crypto_header_extra[..4]),
<[u8; 8]>::try_from(&crypto_header_extra[4..]))` and matches on it.
Both slicings `[..4]` and `[4..]` panic when
`crypto_header_extra.len() < 4`, before any match arm is reached; this is
modelled by the `RustOutcome.panic` branch. When the length is at least 4,
the match arms apply in order: a transform-identifier error propagates, a
fully successful tuple builds the header from the 4-byte and 8-byte
slices, and otherwise the length error is reported. -/
def tryFrom (value : CryptoHeader) :
    RustOutcome (Except SecurityError BuiltinCryptoHeader) :=
  let crypto_header_extra := value.plugin_crypto_header_extra.data
  if 4 ≤ crypto_header_extra.length then
    .ret <|
      match BuiltinCryptoTransformIdentifier.tryFrom value.transformation_id,
        tryFixedArray 4 (crypto_header_extra.take 4),
        tryFixedArray 8 (crypto_header_extra.drop 4) with
      | .error e, _, _ => .error e
      | .ok transform_identifier, some session_id,
          some initialization_vector_suffix =>
          .ok ⟨transform_identifier, session_id, initialization_vector_suffix⟩
      | _, _, _ => .error (.malformedHeaderExtra crypto_header_extra.length)
  else .panic

end BuiltinCryptoHeader

/-- A sample degenerate key material (NONE kind, no keys), used as a concrete
input in witnesses. -/
def kmNone : KeyMaterial_AES_GCM_GMAC :=
  ⟨.CRYPTO_TRANSFORMATION_KIND_NONE, [], 0, ⟨[]⟩, 0, ⟨[]⟩⟩

/-- A sample AES128_GCM key material with 16-byte keys, used as a concrete
input in witnesses. -/
def kmAes128 : KeyMaterial_AES_GCM_GMAC :=
  ⟨.CRYPTO_TRANSFORMATION_KIND_AES128_GCM, [9, 9], 7,
   ⟨List.replicate 16 170⟩, 3, ⟨List.replicate 16 11⟩⟩

/-! Wire-format roundtrip lemmas -/

theorem readU32_u32ToBytes (n : Nat) (h : n < 2 ^ 32) (rest : List Nat) :
    readU32 (u32ToBytes n ++ rest) = some (n, rest) := by
  simp only [u32ToBytes, List.cons_append, List.nil_append, readU32]
  refine congrArg some (Prod.ext ?_ rfl)
  show ((n / 2 ^ 24 % 256 * 256 + n / 2 ^ 16 % 256) * 256 + n / 2 ^ 8 % 256)
      * 256 + n % 256 = n
  omega

theorem readSeq_encodeSeq (l : List Nat) (h : l.length < 2 ^ 32)
    (rest : List Nat) : readSeq (encodeSeq l ++ rest) = some (l, rest) := by
  unfold readSeq encodeSeq
  rw [List.append_assoc, readU32_u32ToBytes l.length h (l ++ rest)]
  simp

theorem readKind_kindBytes (c : CryptoTransformKind) (rest : List Nat) :
    readKind (kindBytes c ++ rest) = some (c, rest) := by
  rfl

theorem kind_roundtrip (k : BuiltinCryptoTransformationKind) :
    BuiltinCryptoTransformationKind.tryFrom k.toWire = .ok k := by
  cases k <;> rfl

theorem decode_encode (s : Serializable_KeyMaterial_AES_GCM_GMAC)
    (rest : List Nat)
    (hsalt : s.master_salt.length < 2 ^ 32)
    (hsk : s.master_sender_key.length < 2 ^ 32)
    (hrk : s.master_receiver_specific_key.length < 2 ^ 32)
    (hsid : s.sender_key_id < 2 ^ 32)
    (hrid : s.receiver_specific_key_id < 2 ^ 32) :
    Serializable_KeyMaterial_AES_GCM_GMAC.decode (s.encode ++ rest)
      = some (s, rest) := by
  obtain ⟨c, salt, sid, sk, rid, rk⟩ := s
  simp only [Serializable_KeyMaterial_AES_GCM_GMAC.encode,
    Serializable_KeyMaterial_AES_GCM_GMAC.decode, List.append_assoc]
  rw [readKind_kindBytes]
  simp only [Option.bind_eq_bind, Option.some_bind]
  rw [readSeq_encodeSeq _ hsalt]
  simp only [Option.some_bind]
  rw [readU32_u32ToBytes _ hsid]
  simp only [Option.some_bind]
  rw [readSeq_encodeSeq _ hsk]
  simp only [Option.some_bind]
  rw [readU32_u32ToBytes _ hrid]
  simp only [Option.some_bind]
  rw [readSeq_encodeSeq _ hrk]
  rfl

theorem tryFromSerializable_toSerializable (m : KeyMaterial_AES_GCM_GMAC)
    (h : ValidKeyMaterial m) :
    KeyMaterial_AES_GCM_GMAC.tryFromSerializable m.toSerializable = .ok m := by
  obtain ⟨h1, h2, -, -, -⟩ := h
  simp only [KeyMaterial_AES_GCM_GMAC.tryFromSerializable,
    KeyMaterial_AES_GCM_GMAC.toSerializable, kind_roundtrip, bind, Except.bind,
    BuiltinKey.from_bytes, BuiltinKey.as_bytes, h1, h2, if_pos, ite_true]

theorem tryFromBytes_toBytes (m : KeyMaterial_AES_GCM_GMAC)
    (h : ValidKeyMaterial m) :
    KeyMaterial_AES_GCM_GMAC.tryFromBytes m.toSerializable.encode = .ok m := by
  obtain ⟨h1, h2, h3, h4, h5⟩ := h
  have hb : requiredLength m.transformation_kind ≤ 32 := by
    cases m.transformation_kind <;> simp [requiredLength]
  unfold KeyMaterial_AES_GCM_GMAC.tryFromBytes
  have hd := decode_encode m.toSerializable []
    (show m.master_salt.length < 2 ^ 32 by omega)
    (show m.master_sender_key.bytes.length < 2 ^ 32 by omega)
    (show m.master_receiver_specific_key.bytes.length < 2 ^ 32 by omega)
    (show m.sender_key_id < 2 ^ 32 from h4)
    (show m.receiver_specific_key_id < 2 ^ 32 from h5)
  rw [List.append_nil] at hd
  rw [hd]
  exact tryFromSerializable_toSerializable m ⟨h1, h2, h3, h4, h5⟩

/-! Claim theorems -/

/-- C1: the claim states that token-to-key-material conversion succeeds only
if the single binary property is named "dds.cryp.keymat", a token whose one
binary property carries any other name being rejected. The embedded code
(`TryFrom<CryptoToken> for BuiltinCryptoToken`) never inspects the property
name: this theorem evaluates it on a token whose binary property is named
"wrong.name" (with a valid CDR key-material value) and shows it is
accepted, contradicting the claim, the function's own error message and
the commented-out predecessor code. -/
theorem C1_token_name_check_missing :
    BuiltinCryptoToken.tryFrom
        ⟨⟨"DDS:Crypto:AES_GCM_GMAC", [],
          [⟨"wrong.name", List.replicate 24 0, true⟩]⟩⟩
      = .ok ⟨⟨.CRYPTO_TRANSFORMATION_KIND_NONE, [], 0, ⟨[]⟩, 0, ⟨[]⟩⟩⟩ := by
  decide

/-- C2: the claim states that header parsing is total and that every extra
field whose length is not 12 — including lengths shorter than 4 — yields a
`MalformedHeaderExtra` error. The embedded code slices
`crypto_header_extra[..4]` and `[4..]`, which panics whenever the extra
field is shorter than 4 bytes: on the empty extra field the code panics
instead of returning the error, while 12-byte and 5-byte extra fields
behave as described. -/
theorem C2_header_parser_panics_on_short_extra :
    BuiltinCryptoHeader.tryFrom ⟨⟨⟨0, 0, 0, 1⟩, 0⟩, ⟨[]⟩⟩ = .panic
    ∧ BuiltinCryptoHeader.tryFrom
        ⟨⟨⟨0, 0, 0, 1⟩, 0⟩, ⟨[1, 2, 3, 4, 5, 6, 7, 8, 9, 10, 11, 12]⟩⟩
      = .ret (.ok ⟨⟨.CRYPTO_TRANSFORMATION_KIND_AES128_GMAC, 0⟩, [1, 2, 3, 4],
                   [5, 6, 7, 8, 9, 10, 11, 12]⟩)
    ∧ BuiltinCryptoHeader.tryFrom ⟨⟨⟨0, 0, 0, 1⟩, 0⟩, ⟨[1, 2, 3, 4, 5]⟩⟩
      = .ret (.error (.malformedHeaderExtra 5)) := by
  refine ⟨rfl, ?_, ?_⟩ <;> decide

/-- C3: `from_wire_list` (`TryFrom<Vec<KeyMaterial_AES_GCM_GMAC>>`) maps the
empty list to `One` of the degenerate key material (kind NONE, empty
master salt, key ids 0, all-zero keys), a singleton to `One` of it, a pair
to `Two` of them in order, and any list of three or more elements to an
`InvalidCardinality` error carrying the observed count. -/
theorem C3_from_wire_list_cardinality :
    (KeyMaterial_AES_GCM_GMAC_seq.tryFromList []
        = .ok (.One ⟨.CRYPTO_TRANSFORMATION_KIND_NONE, [], 0,
            ⟨List.replicate 32 0⟩, 0, ⟨List.replicate 32 0⟩⟩))
    ∧ (∀ a, KeyMaterial_AES_GCM_GMAC_seq.tryFromList [a] = .ok (.One a))
    ∧ (∀ a b, KeyMaterial_AES_GCM_GMAC_seq.tryFromList [a, b]
        = .ok (.Two a b))
    ∧ (∀ v : List KeyMaterial_AES_GCM_GMAC, 3 ≤ v.length →
        KeyMaterial_AES_GCM_GMAC_seq.tryFromList v
          = .error (.invalidCardinality v.length)) := by
  refine ⟨rfl, fun a => rfl, fun a b => rfl, ?_⟩
  intro v hv
  rcases v with _ | ⟨a, _ | ⟨b, _ | ⟨c, rest⟩⟩⟩
  · simp at hv
  · simp at hv
  · simp at hv
  · rfl

/-- Witness for C3 at a concrete three-element list. -/
theorem C3_witness :
    KeyMaterial_AES_GCM_GMAC_seq.tryFromList [kmNone, kmNone, kmNone]
      = .error (.invalidCardinality 3) :=
  C3_from_wire_list_cardinality.2.2.2 [kmNone, kmNone, kmNone] (by decide)

/-- C9: `add_master_receiver_specific_key` preserves the variant of the
sequence, replaces exactly the first element's receiver-specific key id and
key with the given ones, leaves the first element's transformation kind,
master salt, sender key id and master sender key unchanged, and leaves the
second element (when present) entirely unchanged. -/
theorem C9_add_master_receiver_specific_key_frame :
    ∀ (km a b : KeyMaterial_AES_GCM_GMAC) (id : CryptoTransformKeyId)
      (key : BuiltinKey),
      (KeyMaterial_AES_GCM_GMAC_seq.One km).add_master_receiver_specific_key
          id key
        = .One ⟨km.transformation_kind, km.master_salt, km.sender_key_id,
                km.master_sender_key, id, key⟩
      ∧ (KeyMaterial_AES_GCM_GMAC_seq.Two a b).add_master_receiver_specific_key
          id key
        = .Two ⟨a.transformation_kind, a.master_salt, a.sender_key_id,
                a.master_sender_key, id, key⟩ b :=
  fun _ _ _ _ _ => ⟨rfl, rfl⟩

/-- C4: `receiver_key_material_for` returns `Ok` exactly when the sender key
id, transformation kind, master sender key and master salt all agree with
the common key material; on success it carries self's receiver-specific key
id and master receiver-specific key, and on any single-field mismatch it
returns the error naming that field with the expected (common) and
received (self) values. -/
theorem C4_receiver_key_material_for_spec
    (self common : KeyMaterial_AES_GCM_GMAC) :
    ((∃ r, self.receiver_key_material_for common = .ok r) ↔
      (self.sender_key_id = common.sender_key_id ∧
       self.transformation_kind = common.transformation_kind ∧
       self.master_sender_key = common.master_sender_key ∧
       self.master_salt = common.master_salt))
    ∧ (self.sender_key_id = common.sender_key_id →
       self.transformation_kind = common.transformation_kind →
       self.master_sender_key = common.master_sender_key →
       self.master_salt = common.master_salt →
       self.receiver_key_material_for common
         = .ok ⟨self.receiver_specific_key_id,
                self.master_receiver_specific_key⟩)
    ∧ (self.sender_key_id ≠ common.sender_key_id →
       self.transformation_kind = common.transformation_kind →
       self.master_sender_key = common.master_sender_key →
       self.master_salt = common.master_salt →
       self.receiver_key_material_for common
         = .error (.mismatchedSenderKeyId common.sender_key_id
             self.sender_key_id))
    ∧ (self.sender_key_id = common.sender_key_id →
       self.transformation_kind ≠ common.transformation_kind →
       self.master_sender_key = common.master_sender_key →
       self.master_salt = common.master_salt →
       self.receiver_key_material_for common
         = .error (.mismatchedTransformationKind
             common.transformation_kind.toIdx self.transformation_kind.toIdx))
    ∧ (self.sender_key_id = common.sender_key_id →
       self.transformation_kind = common.transformation_kind →
       self.master_sender_key ≠ common.master_sender_key →
       self.master_salt = common.master_salt →
       self.receiver_key_material_for common
         = .error (.mismatchedMasterSenderKey common.master_sender_key.bytes
             self.master_sender_key.bytes))
    ∧ (self.sender_key_id = common.sender_key_id →
       self.transformation_kind = common.transformation_kind →
       self.master_sender_key = common.master_sender_key →
       self.master_salt ≠ common.master_salt →
       self.receiver_key_material_for common
         = .error (.mismatchedMasterSalt common.master_salt
             self.master_salt)) := by
  by_cases hA : self.sender_key_id = common.sender_key_id <;>
    by_cases hB : self.transformation_kind = common.transformation_kind <;>
      by_cases hC : self.master_sender_key = common.master_sender_key <;>
        by_cases hD : self.master_salt = common.master_salt <;>
          simp [KeyMaterial_AES_GCM_GMAC.receiver_key_material_for,
            hA, hB, hC, hD]

/-- Witness for C4: a key material matches itself, and changing only the
sender key id yields the sender-key-id mismatch error with the expected
and received ids. -/
theorem C4_witness :
    kmAes128.receiver_key_material_for kmAes128
        = .ok ⟨3, ⟨List.replicate 16 11⟩⟩
    ∧ (⟨kmAes128.transformation_kind, kmAes128.master_salt, 8,
        kmAes128.master_sender_key, kmAes128.receiver_specific_key_id,
        kmAes128.master_receiver_specific_key⟩ :
          KeyMaterial_AES_GCM_GMAC).receiver_key_material_for kmAes128
        = .error (.mismatchedSenderKeyId 7 8) :=
  ⟨(C4_receiver_key_material_for_spec kmAes128 kmAes128).2.1 rfl rfl rfl rfl,
   (C4_receiver_key_material_for_spec _ kmAes128).2.2.1 (by decide)
     rfl rfl rfl⟩

/-- C5: converting a valid key material to a crypto token
(`TryFrom<KeyMaterial_AES_GCM_GMAC> for CryptoToken`) succeeds, and
converting the resulting token back
(`TryFrom<CryptoToken> for KeyMaterial_AES_GCM_GMAC`) returns the original
key material unchanged. -/
theorem C5_token_roundtrip (m : KeyMaterial_AES_GCM_GMAC)
    (h : ValidKeyMaterial m) :
    ∃ t, m.toToken = .ok t
      ∧ KeyMaterial_AES_GCM_GMAC.tryFromToken t = .ok m := by
  refine ⟨⟨⟨CRYPTO_TOKEN_CLASS_ID, [],
    [⟨CRYPTO_TOKEN_KEYMAT_NAME, m.toSerializable.encode, true⟩]⟩⟩, rfl, ?_⟩
  simp only [KeyMaterial_AES_GCM_GMAC.tryFromToken, BuiltinCryptoToken.tryFrom,
    if_true]
  rw [show (KeyMaterial_AES_GCM_GMAC.tryFromBytes m.toSerializable.encode)
        = .ok m from tryFromBytes_toBytes m h]
  rfl

/-- Witness for C5 at a concrete AES128_GCM key material. -/
theorem C5_witness :
    ∃ t, kmAes128.toToken = .ok t
      ∧ KeyMaterial_AES_GCM_GMAC.tryFromToken t = .ok kmAes128 :=
  C5_token_roundtrip kmAes128 (by decide)

/-- C6: encoding a valid key material to CDR bytes
(`TryFrom<KeyMaterial_AES_GCM_GMAC> for Bytes`) succeeds, and decoding the
resulting bytes (`TryFrom<Bytes> for KeyMaterial_AES_GCM_GMAC`) returns the
original key material unchanged. -/
theorem C6_wire_roundtrip (m : KeyMaterial_AES_GCM_GMAC)
    (h : ValidKeyMaterial m) :
    ∃ bs, m.toBytes = .ok bs
      ∧ KeyMaterial_AES_GCM_GMAC.tryFromBytes bs = .ok m :=
  ⟨m.toSerializable.encode, rfl, tryFromBytes_toBytes m h⟩

/-- Witness for C6 at a concrete degenerate key material. -/
theorem C6_witness :
    ∃ bs, kmNone.toBytes = .ok bs
      ∧ KeyMaterial_AES_GCM_GMAC.tryFromBytes bs = .ok kmNone :=
  C6_wire_roundtrip kmNone (by decide)

/-- C7: decoding a 4-byte transformation-kind code succeeds exactly on the
five reserved codes, mapping each to its kind; every other 4-byte code
yields the `InvalidTransformationKind` error; and decoding the encoding of
any kind returns that kind. -/
theorem C7_transformation_kind_codec :
    (BuiltinCryptoTransformationKind.tryFrom ⟨0, 0, 0, 0⟩
        = .ok .CRYPTO_TRANSFORMATION_KIND_NONE)
    ∧ (BuiltinCryptoTransformationKind.tryFrom ⟨0, 0, 0, 1⟩
        = .ok .CRYPTO_TRANSFORMATION_KIND_AES128_GMAC)
    ∧ (BuiltinCryptoTransformationKind.tryFrom ⟨0, 0, 0, 2⟩
        = .ok .CRYPTO_TRANSFORMATION_KIND_AES128_GCM)
    ∧ (BuiltinCryptoTransformationKind.tryFrom ⟨0, 0, 0, 3⟩
        = .ok .CRYPTO_TRANSFORMATION_KIND_AES256_GMAC)
    ∧ (BuiltinCryptoTransformationKind.tryFrom ⟨0, 0, 0, 4⟩
        = .ok .CRYPTO_TRANSFORMATION_KIND_AES256_GCM)
    ∧ (∀ c : CryptoTransformKind, c ≠ ⟨0, 0, 0, 0⟩ → c ≠ ⟨0, 0, 0, 1⟩ →
        c ≠ ⟨0, 0, 0, 2⟩ → c ≠ ⟨0, 0, 0, 3⟩ → c ≠ ⟨0, 0, 0, 4⟩ →
        BuiltinCryptoTransformationKind.tryFrom c
          = .error .invalidTransformationKind)
    ∧ (∀ k, BuiltinCryptoTransformationKind.tryFrom k.toWire = .ok k) := by
  refine ⟨rfl, rfl, rfl, rfl, rfl, ?_, kind_roundtrip⟩
  intro c h0 h1 h2 h3 h4
  simp [BuiltinCryptoTransformationKind.tryFrom, h0, h1, h2, h3, h4]

/-- Witness for C7 at a concrete non-reserved code. -/
theorem C7_witness :
    BuiltinCryptoTransformationKind.tryFrom ⟨9, 9, 9, 9⟩
      = .error .invalidTransformationKind :=
  C7_transformation_kind_codec.2.2.2.2.2.1 ⟨9, 9, 9, 9⟩
    (by decide) (by decide) (by decide) (by decide) (by decide)

/-- C8: the key lengths of a successfully wire-decoded key material are
determined solely by the transformation kind, following the table NONE → 0,
AES128_* → 16, AES256_* → 32, and a serialized key material whose key bytes
have any other length for its decoded kind fails with a `KeyLengthMismatch`
error (the master sender key being checked first). -/
theorem C8_key_length_policy :
    (requiredLength .CRYPTO_TRANSFORMATION_KIND_NONE = 0
      ∧ requiredLength .CRYPTO_TRANSFORMATION_KIND_AES128_GMAC = 16
      ∧ requiredLength .CRYPTO_TRANSFORMATION_KIND_AES128_GCM = 16
      ∧ requiredLength .CRYPTO_TRANSFORMATION_KIND_AES256_GMAC = 32
      ∧ requiredLength .CRYPTO_TRANSFORMATION_KIND_AES256_GCM = 32)
    ∧ (∀ (s : Serializable_KeyMaterial_AES_GCM_GMAC)
         (m : KeyMaterial_AES_GCM_GMAC),
        KeyMaterial_AES_GCM_GMAC.tryFromSerializable s = .ok m →
        m.master_sender_key.bytes.length
            = requiredLength m.transformation_kind
          ∧ m.master_receiver_specific_key.bytes.length
            = requiredLength m.transformation_kind)
    ∧ (∀ (s : Serializable_KeyMaterial_AES_GCM_GMAC)
         (k : BuiltinCryptoTransformationKind),
        BuiltinCryptoTransformationKind.tryFrom s.transformation_kind = .ok k →
        s.master_sender_key.length ≠ requiredLength k →
        KeyMaterial_AES_GCM_GMAC.tryFromSerializable s
          = .error (.keyLengthMismatch (requiredLength k)
              s.master_sender_key.length))
    ∧ (∀ (s : Serializable_KeyMaterial_AES_GCM_GMAC)
         (k : BuiltinCryptoTransformationKind),
        BuiltinCryptoTransformationKind.tryFrom s.transformation_kind = .ok k →
        s.master_sender_key.length = requiredLength k →
        s.master_receiver_specific_key.length ≠ requiredLength k →
        KeyMaterial_AES_GCM_GMAC.tryFromSerializable s
          = .error (.keyLengthMismatch (requiredLength k)
              s.master_receiver_specific_key.length)) := by
  refine ⟨⟨rfl, rfl, rfl, rfl, rfl⟩, ?_, ?_, ?_⟩
  · intro s m h
    unfold KeyMaterial_AES_GCM_GMAC.tryFromSerializable at h
    cases hk : BuiltinCryptoTransformationKind.tryFrom s.transformation_kind
      with
    | error e => rw [hk] at h; exact absurd h (by simp [bind, Except.bind])
    | ok k =>
        rw [hk] at h
        simp only [bind, Except.bind, BuiltinKey.from_bytes] at h
        split_ifs at h with hl1 hl2
        · simp only [Except.ok.injEq] at h
          subst h
          exact ⟨hl1, hl2⟩
  · intro s k hk hl
    unfold KeyMaterial_AES_GCM_GMAC.tryFromSerializable
    rw [hk]
    simp [bind, Except.bind, BuiltinKey.from_bytes, hl]
  · intro s k hk hl1 hl2
    unfold KeyMaterial_AES_GCM_GMAC.tryFromSerializable
    rw [hk]
    simp [bind, Except.bind, BuiltinKey.from_bytes, hl1, hl2]

/-- Witness for C8: a serialized key material with AES128_GCM kind and a
3-byte master sender key is rejected with the key-length mismatch error. -/
theorem C8_witness :
    KeyMaterial_AES_GCM_GMAC.tryFromSerializable
        ⟨⟨0, 0, 0, 2⟩, [], 0, [1, 2, 3], 0, []⟩
      = .error (.keyLengthMismatch 16 3) :=
  C8_key_length_policy.2.2.1 ⟨⟨0, 0, 0, 2⟩, [], 0, [1, 2, 3], 0, []⟩
    .CRYPTO_TRANSFORMATION_KIND_AES128_GCM (by decide) (by decide)

/-- C10: in token decoding the builtin contract checks have a fixed
precedence: a wrong class id always yields the wrong-class-id error
regardless of the property lists; a correct class id with a non-empty
properties list always yields the wrong-properties error regardless of the
binary properties; and the wrong-binary-properties error can only arise
from a token with the correct class id and an empty properties list. -/
theorem C10_token_error_precedence (t : CryptoToken) :
    (t.data_holder.class_id ≠ CRYPTO_TOKEN_CLASS_ID →
        BuiltinCryptoToken.tryFrom t
          = .error (.wrongClassId CRYPTO_TOKEN_CLASS_ID))
    ∧ (t.data_holder.class_id = CRYPTO_TOKEN_CLASS_ID →
        t.data_holder.properties ≠ [] →
        BuiltinCryptoToken.tryFrom t = .error .wrongProperties)
    ∧ (∀ name,
        BuiltinCryptoToken.tryFrom t
            = .error (.wrongBinaryProperties name) →
        t.data_holder.class_id = CRYPTO_TOKEN_CLASS_ID ∧
        t.data_holder.properties = []) := by
  obtain ⟨⟨cid, props, bps⟩⟩ := t
  refine ⟨?_, ?_, ?_⟩
  · intro h
    simp [BuiltinCryptoToken.tryFrom, h]
  · intro h hp
    subst h
    cases props with
    | nil => exact absurd rfl hp
    | cons p ps =>
        cases bps with
        | nil => simp [BuiltinCryptoToken.tryFrom]
        | cons b bs => simp [BuiltinCryptoToken.tryFrom]
  · intro name h
    by_cases hc : cid = CRYPTO_TOKEN_CLASS_ID
    · subst hc
      cases props with
      | nil => exact ⟨rfl, rfl⟩
      | cons p ps =>
          cases bps with
          | nil => simp [BuiltinCryptoToken.tryFrom] at h
          | cons b bs => simp [BuiltinCryptoToken.tryFrom] at h
    · simp [BuiltinCryptoToken.tryFrom, hc] at h

/-- Witness for C10: a wrong class id is reported as such even with a
non-empty properties list, and a correct class id with a non-empty
properties list is reported as wrong properties even with two binary
properties. -/
theorem C10_witness :
    BuiltinCryptoToken.tryFrom
        ⟨⟨"other", [⟨"a", "b", true⟩], []⟩⟩
      = .error (.wrongClassId "DDS:Crypto:AES_GCM_GMAC")
    ∧ BuiltinCryptoToken.tryFrom
        ⟨⟨"DDS:Crypto:AES_GCM_GMAC", [⟨"a", "b", true⟩],
          [⟨"x", [], true⟩, ⟨"y", [], true⟩]⟩⟩
      = .error .wrongProperties :=
  ⟨(C10_token_error_precedence _).1 (by decide),
   (C10_token_error_precedence _).2.1 rfl (by decide)⟩

end RustDDS
